import Mathlib

/-!
# Verification of the bonsai state reducer (src/src/utils/reducer.js)

This file gives a shallow embedding of the reducer of the bonsai webpack
dependency-size explorer and proves the specified properties of it.

Modelling conventions:
* JS objects used as string-keyed maps (the `dataPaths` status table and the
  `json` document table) are association lists with unique keys; the JS update
  idiom spreading a map and overriding one key is `setKey`, the two-object
  spread is `spreadObj`.
* A JS `Set` (the `expandedRecords` field) is an insertion-ordered duplicate-free
  list; `Set.prototype.add` / `delete` are `setAdd` / `setDelete`.
* `ModuleID` and `ChunkID` are `string | number` in the source and every
  comparison the reducer performs on them goes through `String(...)`; they are
  modelled as `String`.
* The identity comparison `===` on the four derivation inputs in
  `calculateFullModuleData` is modelled as structural equality.  In JS,
  reference equality implies structural equality, so every theorem whose
  hypothesis is that the inputs are unchanged covers the reference-equality
  reading of the source.
* JS truthiness tests on optional strings treat both `null` and the empty
  string as falsy; this is `isFalsyStr`.
-/

namespace Bonsai

/-- Lookup in a string-keyed association list (JS property read `m[k]`). -/
def getKey {α : Type} : List (String × α) → String → Option α
  | [], _ => none
  | (k0, v0) :: rest, k => if k0 = k then some v0 else getKey rest k

/-- JS single-key object update, the spread idiom that copies a map and sets one
key: replaces the first binding of the key in place, appends it otherwise. -/
def setKey {α : Type} : List (String × α) → String → α → List (String × α)
  | [], k, v => [(k, v)]
  | (k0, v0) :: rest, k, v =>
    if k0 = k then (k, v) :: rest else (k0, v0) :: setKey rest k v

/-- JS two-object spread: keys of `a` first with the values of `b` winning
for keys present in both, then the keys only in `b`. -/
def spreadObj {α : Type} (a b : List (String × α)) : List (String × α) :=
  (a.map (fun p =>
    match getKey b p.1 with
    | some v => (p.1, v)
    | none => p)) ++
  b.filter (fun q => !(a.any (fun p => p.1 == q.1)))

/-- JS `Set.prototype.add` on an insertion-ordered duplicate-free list. -/
def setAdd (s : List String) (m : String) : List String :=
  if m ∈ s then s else s ++ [m]

/-- JS `Set.prototype.delete` on an insertion-ordered duplicate-free list. -/
def setDelete (s : List String) (m : String) : List String :=
  s.filter (fun x => x != m)

/-- JS truthiness of an optional string: `null` / `undefined` and the empty
string are falsy. -/
def isFalsyStr : Option String → Bool
  | none => true
  | some s => s == ""

/-- The fields of a raw webpack module record that the deriver reads
(spec section 3 / 6): identifier, display name, own size, required module
identifiers and requiring module identifiers. -/
structure Module where
  id : String
  name : String
  size : Nat
  requirements : List String
  requiredBy : List String
deriving DecidableEq

/-- A raw chunk record: identifier and member module identifiers. -/
structure Chunk where
  id : String
  moduleIds : List String
deriving DecidableEq

/-- The raw stats document, a black box to the reducer except for the fields
the deriver reads: a collection of module records and a collection of chunk
records. -/
structure RawStats where
  modules : List Module
  chunks : List Chunk
deriving DecidableEq

/-- A derived module record: identifier, name, own size, computed cumulative
size, computed tree parent and computed child list. -/
structure ExtendedModule where
  id : String
  name : String
  size : Nat
  cumulativeSize : Nat
  parent : Option String
  children : List String
deriving DecidableEq

/-- The result of one full-module-data derivation: the flat collection of all
surviving derived records (the tree is recoverable from the parent/children
links). -/
structure FullModuleDataType where
  extendedModules : List ExtendedModule
deriving DecidableEq

/-- Modelled from the spec (section 4.3): the source file
src/stats/getModulesById.js is not part of the repository snapshot, only its
caller reducer.js is.  Builds a lookup keyed by module identifier in one pass,
later duplicates overwriting earlier ones. -/
def getModulesById (modules : List ExtendedModule) : List (String × ExtendedModule) :=
  modules.foldl (fun index m => setKey index m.id m) []

/-- Index of raw module records by identifier, one pass, last write wins
(spec section 4.3). -/
def rawModuleIndex (modules : List Module) : List (String × Module) :=
  modules.foldl (fun index m => setKey index m.id m) []

/-- Fuel-bounded breadth-first walk over the requirement graph.  Processes one
queue entry per unit of fuel; an entry is skipped when already visited, when
its identifier is in `avoid`, or when it does not name a module of the index
(a missing requirement list makes a leaf, spec section 7).  Each visited entry
remembers the identifier it was first discovered from, which becomes its tree
parent (spec section 4.4 step 3: first discovered is definitive). -/
def bfsSurvivors (index : List (String × Module)) (avoid : List String) :
    Nat → List (String × Option String) → List (String × Option String) →
    List (String × Option String)
  | 0, visited, _ => visited
  | _ + 1, visited, [] => visited
  | fuel + 1, visited, (i, par) :: queue =>
    if visited.any (fun v => v.1 == i) || avoid.contains i then
      bfsSurvivors index avoid fuel visited queue
    else
      match getKey index i with
      | none => bfsSurvivors index avoid fuel visited queue
      | some m =>
        bfsSurvivors index avoid fuel (visited ++ [(i, par)])
          (queue ++ m.requirements.map (fun r => (r, some i)))

/-- Enough fuel to process every root and every requirement edge once. -/
def bfsFuel (doc : RawStats) (roots : List String) : Nat :=
  roots.length + doc.modules.foldl (fun n m => n + m.requirements.length) 0 + 1

/-- Modelled from the spec (section 4.4): the source file
src/stats/fullModuleData.js is not part of the repository snapshot, only its
caller reducer.js is.  Given the raw document, the selected chunk identifier
(none meaning whole-bundle scope) and the blacklist: restrict the universe to
the modules reachable from the chunk member list (or all modules when no chunk
is selected), prune blacklisted modules and everything only reachable through
them, give each survivor the parent it was first discovered from, and annotate
each survivor with its cumulative size, the sum (each counted once) of the own
sizes of the survivors reachable from it.  A missing chunk yields an empty
membership, so an empty tree, never an error (spec section 7); the walks are
bounded by the size of the module universe (spec section 5). -/
def fullModuleData (doc : RawStats) (chunkId : Option String)
    (blacklist : List String) : FullModuleDataType :=
  let index := rawModuleIndex doc.modules
  let roots :=
    match chunkId with
    | some c =>
      match doc.chunks.find? (fun ch => ch.id == c) with
      | some ch => ch.moduleIds
      | none => []
    | none => doc.modules.map (fun m => m.id)
  let fuel := bfsFuel doc roots
  let survivors := bfsSurvivors index blacklist fuel [] (roots.map (fun r => (r, none)))
  let survivorIds := survivors.map (fun v => v.1)
  let nonSurvivors := (doc.modules.map (fun m => m.id)).filter
    (fun i => !(survivorIds.contains i))
  let cumulative := fun (i : String) =>
    (bfsSurvivors index nonSurvivors fuel [] [(i, none)]).foldl
      (fun acc v =>
        acc + (match getKey index v.1 with
               | some m => m.size
               | none => 0)) 0
  { extendedModules :=
      survivors.filterMap (fun v =>
        (getKey index v.1).map (fun m =>
          { id := v.1
            name := m.name
            size := m.size
            cumulativeSize := cumulative v.1
            parent := v.2
            children := (survivors.filter (fun w => w.2 == some v.1)).map (fun w => w.1) })) }

/-- Upward walk along parent links, fuel-bounded by the index size
(spec section 4.2): returns the first record along the chain that has
children, none when the chain ends or the bound is exhausted. -/
def walkUp (index : List (String × ExtendedModule)) :
    Nat → Option String → Option ExtendedModule
  | 0, _ => none
  | _ + 1, none => none
  | fuel + 1, some i =>
    match getKey index i with
    | none => none
    | some m => if m.children.isEmpty then walkUp index fuel m.parent else some m

/-- Modelled from the spec (section 4.2): the source file
src/stats/getCollapsableParentOf.js is not part of the repository snapshot,
only its caller reducer.js is.  Walks the parent link of the starting module
upward until it finds a non-leaf record with children, bounded by the number
of records in the index, returning none when no such ancestor exists. -/
def getCollapsableParentOf (index : List (String × ExtendedModule))
    (startId : String) : Option ExtendedModule :=
  match getKey index startId with
  | none => none
  | some m => walkUp index (index.length + 1) m.parent

/-- Per-path load status (source type DataPathState). -/
inductive DataPathState where
  | unknown
  | loading
  | error
  | ready
deriving DecidableEq

/-- Sort direction (source values ASC / DESC). -/
inductive SortDirection where
  | ASC
  | DESC
deriving DecidableEq

/-- Sort criteria (source type SortProps); the sortable field is one of a
fixed union of field-name strings in the source. -/
structure SortProps where
  field : String
  direction : SortDirection
deriving DecidableEq

/-- Filter criteria (source type FilterProps), raw text fields. -/
structure FilterProps where
  moduleName : String
  cumulativeSizeMin : String
  cumulativeSizeMax : String
  requiredByCountMin : String
  requiredByCountMax : String
  requirementsCountMin : String
  requirementsCountMax : String
deriving DecidableEq

/-- An update of any subset of the filter criteria, as carried by the onFiltered
action (a JS object with any subset of the filterable fields present). -/
structure FilterChanges where
  moduleName : Option String
  cumulativeSizeMin : Option String
  cumulativeSizeMax : Option String
  requiredByCountMin : Option String
  requiredByCountMax : Option String
  requirementsCountMin : Option String
  requirementsCountMax : Option String
deriving DecidableEq

/-- JS shallow merge of the changes over the filters
(the source spread of state.filters then action.changes). -/
def mergeFilters (f : FilterProps) (c : FilterChanges) : FilterProps :=
  { moduleName := c.moduleName.getD f.moduleName
    cumulativeSizeMin := c.cumulativeSizeMin.getD f.cumulativeSizeMin
    cumulativeSizeMax := c.cumulativeSizeMax.getD f.cumulativeSizeMax
    requiredByCountMin := c.requiredByCountMin.getD f.requiredByCountMin
    requiredByCountMax := c.requiredByCountMax.getD f.requiredByCountMax
    requirementsCountMin := c.requirementsCountMin.getD f.requirementsCountMin
    requirementsCountMax := c.requirementsCountMax.getD f.requirementsCountMax }

/-- Expand mode (source union manual | expand-all | collapse-all). -/
inductive ExpandMode where
  | manual
  | expandAll
  | collapseAll
deriving DecidableEq

/-- The reducer state (source type State). -/
structure State where
  dataPaths : List (String × DataPathState)
  selectedFilename : Option String
  selectedChunkId : Option String
  blacklistedModuleIds : List String
  json : List (String × RawStats)
  sort : SortProps
  filters : FilterProps
  expandMode : ExpandMode
  expandedRecords : List String
  currentlyFocusedElementID : Option String
  calculatedFullModuleData : Option FullModuleDataType
deriving DecidableEq

/-- The initial state (source INITIAL_STATE). -/
def INITIAL_STATE : State :=
  { dataPaths := []
    selectedFilename := none
    selectedChunkId := none
    blacklistedModuleIds := []
    json := []
    sort := { field := "cumulativeSize", direction := SortDirection.DESC }
    filters :=
      { moduleName := ""
        cumulativeSizeMin := ""
        cumulativeSizeMax := ""
        requiredByCountMin := ""
        requiredByCountMax := ""
        requirementsCountMin := ""
        requirementsCountMax := "" }
    expandMode := ExpandMode.collapseAll
    expandedRecords := []
    currentlyFocusedElementID := none
    calculatedFullModuleData := none }

/-- The action catalog (source union Action).  The extra constructor
unknownAction stands for any action object whose type string is not in the
catalog, which the source switch sends to its default branch. -/
inductive Action where
  | discoveredDataPaths (paths : List String)
  | pickDataPath (path : String)
  | requestedDataAtPath (path : String)
  | loadedStatsAtPath (path : String) (stats : RawStats)
  | erroredAtPath (path : String) (error : String)
  | onSorted (sortField : String)
  | onFiltered (changes : FilterChanges)
  | onPickedChunk (chunkId : String)
  | onRemoveModule (moduleID : String)
  | onIncludeModule (moduleID : String)
  | changeExpandRecordsMode (mode : ExpandMode)
  | onExpandRecords (moduleID : String)
  | onCollapseRecords (moduleID : String)
  | onFocusChanged (elementID : Option String)
  | unknownAction (tag : String)
deriving DecidableEq

/-- The action dispatch of the source (function handleAction), case for case.
The value stored in expandedRecords by onExpandRecords and by the focus branch
of onFocusChanged is the value of the freshly constructed copy in the source;
the aliasing side effect of the inner Set.prototype.add call on the input
state is modelled separately by handleActionPost. -/
def handleAction (state : State) (action : Action) : State :=
  match action with
  | .discoveredDataPaths paths =>
    { state with
      dataPaths :=
        spreadObj
          (paths.foldl (fun map path =>
            setKey map path ((getKey map path).getD DataPathState.unknown)) [])
          state.dataPaths }
  | .pickDataPath path =>
    { state with
      dataPaths :=
        spreadObj
          [(path, (getKey state.dataPaths path).getD DataPathState.unknown)]
          state.dataPaths
      selectedFilename := some path
      selectedChunkId := none
      blacklistedModuleIds := []
      expandMode := ExpandMode.collapseAll
      expandedRecords := []
      currentlyFocusedElementID := none }
  | .requestedDataAtPath path =>
    { state with
      dataPaths :=
        setKey state.dataPaths path
          (if getKey state.dataPaths path = some DataPathState.ready
           then DataPathState.ready
           else DataPathState.loading) }
  | .loadedStatsAtPath path stats =>
    { state with
      dataPaths := setKey state.dataPaths path DataPathState.ready
      json := setKey state.json path stats }
  | .erroredAtPath path _ =>
    { state with
      dataPaths := setKey state.dataPaths path DataPathState.error }
  | .onSorted sortField =>
    let isSameField := state.sort.field == sortField
    let invertedDir :=
      if state.sort.direction = SortDirection.ASC
      then SortDirection.DESC
      else SortDirection.ASC
    let nextDirection := if isSameField then invertedDir else SortDirection.DESC
    { state with sort := { field := sortField, direction := nextDirection } }
  | .onFiltered changes =>
    { state with filters := mergeFilters state.filters changes }
  | .onPickedChunk chunkId =>
    { state with
      selectedChunkId := some chunkId
      blacklistedModuleIds := []
      expandMode := ExpandMode.collapseAll
      expandedRecords := []
      currentlyFocusedElementID := none }
  | .onRemoveModule moduleID =>
    { state with
      blacklistedModuleIds := state.blacklistedModuleIds ++ [moduleID] }
  | .onIncludeModule moduleID =>
    { state with
      blacklistedModuleIds :=
        state.blacklistedModuleIds.filter (fun id => id != moduleID) }
  | .changeExpandRecordsMode mode =>
    { state with expandMode := mode }
  | .onExpandRecords moduleID =>
    { state with
      expandMode := ExpandMode.manual
      expandedRecords := setAdd state.expandedRecords moduleID }
  | .onCollapseRecords moduleID =>
    let expandedRecords := setDelete state.expandedRecords moduleID
    { state with
      expandMode :=
        if state.expandedRecords.length = 0
        then ExpandMode.collapseAll
        else ExpandMode.manual
      expandedRecords := expandedRecords }
  | .onFocusChanged elementID =>
    match elementID, state.calculatedFullModuleData with
    | some eid, some fmd =>
      if eid = "" then
        { state with currentlyFocusedElementID := elementID }
      else
        let modulesById := getModulesById fmd.extendedModules
        let collapseableParent := getCollapsableParentOf modulesById eid
        match collapseableParent with
        | some parent =>
          { state with
            expandMode := ExpandMode.manual
            expandedRecords := setAdd state.expandedRecords parent.id
            currentlyFocusedElementID := elementID }
        | none =>
          { state with currentlyFocusedElementID := elementID }
    | _, _ =>
      { state with currentlyFocusedElementID := elementID }
  | .unknownAction _ => state

/-- The input state object as the caller observes it AFTER handleAction
returns.  The source evaluates state.expandedRecords.add(moduleID) inside
onExpandRecords and inside the parent-found branch of onFocusChanged;
Set.prototype.add mutates the receiver before the surrounding copy is taken,
so in exactly these two branches the caller's state object has gained an
element in its expandedRecords set.  Every other case only reads the state. -/
def handleActionPost (state : State) (action : Action) : State :=
  match action with
  | .onExpandRecords moduleID =>
    { state with expandedRecords := setAdd state.expandedRecords moduleID }
  | .onFocusChanged elementID =>
    match elementID, state.calculatedFullModuleData with
    | some eid, some fmd =>
      if eid = "" then state
      else
        match getCollapsableParentOf (getModulesById fmd.extendedModules) eid with
        | some parent =>
          { state with expandedRecords := setAdd state.expandedRecords parent.id }
        | none => state
    | _, _ => state
  | _ => state

/-- The derived-data post-processing step of the source (function
calculateFullModuleData).  The source guard also tests the whole json table
for falsiness, which never fires because the table is always an object; the
falsiness test of selectedFilename covers both null and the empty string. -/
def calculateFullModuleData (oldState newState : State) : State :=
  match newState.selectedFilename with
  | none => { newState with calculatedFullModuleData := none }
  | some f =>
    if f = "" then { newState with calculatedFullModuleData := none }
    else
      match getKey newState.json f with
      | none => { newState with calculatedFullModuleData := none }
      | some doc =>
        if oldState.json = newState.json ∧
           oldState.selectedFilename = newState.selectedFilename ∧
           oldState.selectedChunkId = newState.selectedChunkId ∧
           oldState.blacklistedModuleIds = newState.blacklistedModuleIds
        then newState
        else
          { newState with
            calculatedFullModuleData :=
              some (fullModuleData doc newState.selectedChunkId
                newState.blacklistedModuleIds) }

/-- calculateFullModuleData instrumented with a flag recording whether the
derivation (fullModuleData) was invoked on this transition. -/
def calculateFullModuleDataInstr (oldState newState : State) : State × Bool :=
  match newState.selectedFilename with
  | none => ({ newState with calculatedFullModuleData := none }, false)
  | some f =>
    if f = "" then ({ newState with calculatedFullModuleData := none }, false)
    else
      match getKey newState.json f with
      | none => ({ newState with calculatedFullModuleData := none }, false)
      | some doc =>
        if oldState.json = newState.json ∧
           oldState.selectedFilename = newState.selectedFilename ∧
           oldState.selectedChunkId = newState.selectedChunkId ∧
           oldState.blacklistedModuleIds = newState.blacklistedModuleIds
        then (newState, false)
        else
          ({ newState with
             calculatedFullModuleData :=
               some (fullModuleData doc newState.selectedChunkId
                 newState.blacklistedModuleIds) }, true)

/-- The exported reducer of the source: apply the action, then re-derive the
full module data. -/
def reducer (state : State) (action : Action) : State :=
  calculateFullModuleData state (handleAction state action)

/-- The reducer instrumented with the derivation-invocation flag. -/
def reducerInstr (state : State) (action : Action) : State × Bool :=
  calculateFullModuleDataInstr state (handleAction state action)

/-- The value calculateFullModuleData is contracted to store: none when no
file is selected (null or empty filename) or the document table has no entry
for it, the derivation of the current four inputs otherwise. -/
def expectedCalc (st : State) : Option FullModuleDataType :=
  match st.selectedFilename with
  | none => none
  | some f =>
    if f = "" then none
    else
      (getKey st.json f).map (fun doc =>
        fullModuleData doc st.selectedChunkId st.blacklistedModuleIds)

/-- A state whose stored derived data agrees with its four derivation inputs;
established by the initial state and preserved by every reducer transition. -/
def Coherent (st : State) : Prop :=
  st.calculatedFullModuleData = expectedCalc st

instance (st : State) : Decidable (Coherent st) :=
  inferInstanceAs (Decidable (st.calculatedFullModuleData = expectedCalc st))

/-- A small concrete stats document (the scenario of spec section 8): module A
of size 10 requiring B and C, module B of size 5 requiring C, module C of
size 3 requiring nothing, and one chunk containing A. -/
def demoDoc : RawStats :=
  { modules :=
      [ { id := "A", name := "A", size := 10, requirements := ["B", "C"], requiredBy := [] }
      , { id := "B", name := "B", size := 5, requirements := ["C"], requiredBy := ["A"] }
      , { id := "C", name := "C", size := 3, requirements := [], requiredBy := ["A", "B"] } ]
    chunks := [ { id := "c1", moduleIds := ["A"] } ] }

/-- A concrete reachable state with a loaded and selected document, whose
derived tree contains modules A, B and C. -/
def demoState : State :=
  reducer (reducer INITIAL_STATE (Action.loadedStatsAtPath "f" demoDoc))
    (Action.pickDataPath "f")

/-! ## Association-list lemmas -/

theorem getKey_setKey_self {α : Type} (m : List (String × α)) (k : String) (v : α) :
    getKey (setKey m k v) k = some v := by
  induction m with
  | nil => simp [setKey, getKey]
  | cons p rest ih =>
    obtain ⟨k0, v0⟩ := p
    by_cases hk : k0 = k
    · simp [setKey, hk, getKey]
    · simp [setKey, hk, getKey, ih]

theorem getKey_setKey_ne {α : Type} (m : List (String × α)) (k q : String) (v : α)
    (h : q ≠ k) : getKey (setKey m k v) q = getKey m q := by
  induction m with
  | nil =>
    simp only [setKey, getKey]
    rw [if_neg (fun hh => h hh.symm)]
  | cons p rest ih =>
    obtain ⟨k0, v0⟩ := p
    by_cases hk : k0 = k
    · subst hk
      simp only [setKey, if_pos rfl, getKey]
      rw [if_neg (fun hh => h hh.symm), if_neg (fun hh => h hh.symm)]
    · by_cases hq : k0 = q <;> simp [setKey, getKey, hk, hq, ih, h]

/-! ## Characterization of the derived-data step -/

/-- calculateFullModuleData carries the previous value through exactly when the
four derivation inputs are unchanged and a document is selected, and stores the
contracted value otherwise. -/
theorem calculateFullModuleData_eq (oldState newState : State) :
    calculateFullModuleData oldState newState =
      if (oldState.json = newState.json ∧
          oldState.selectedFilename = newState.selectedFilename ∧
          oldState.selectedChunkId = newState.selectedChunkId ∧
          oldState.blacklistedModuleIds = newState.blacklistedModuleIds) ∧
         expectedCalc newState ≠ none
      then newState
      else { newState with calculatedFullModuleData := expectedCalc newState } := by
  unfold calculateFullModuleData
  split
  next heq =>
    have hnone : expectedCalc newState = none := by
      simp [expectedCalc, heq]
    rw [hnone, if_neg (by rintro ⟨-, hne⟩; exact hne rfl)]
  next f heq =>
    split
    next he =>
      have hnone : expectedCalc newState = none := by
        simp [expectedCalc, heq, he]
      rw [hnone, if_neg (by rintro ⟨-, hne⟩; exact hne rfl)]
    next he =>
      split
      next hd =>
        have hnone : expectedCalc newState = none := by
          simp [expectedCalc, heq, he, hd]
        rw [hnone, if_neg (by rintro ⟨-, hne⟩; exact hne rfl)]
      next doc hd =>
        have hexp : expectedCalc newState =
            some (fullModuleData doc newState.selectedChunkId
              newState.blacklistedModuleIds) := by
          simp [expectedCalc, heq, he, hd]
        rw [hexp]
        split
        next hmemo => rw [if_pos ⟨hmemo, Option.some_ne_none _⟩]
        next hmemo => rw [if_neg (fun hc => hmemo hc.1)]

theorem calculateFullModuleData_dataPaths (o n : State) :
    (calculateFullModuleData o n).dataPaths = n.dataPaths := by
  rw [calculateFullModuleData_eq]; split <;> rfl

theorem calculateFullModuleData_selectedFilename (o n : State) :
    (calculateFullModuleData o n).selectedFilename = n.selectedFilename := by
  rw [calculateFullModuleData_eq]; split <;> rfl

theorem calculateFullModuleData_selectedChunkId (o n : State) :
    (calculateFullModuleData o n).selectedChunkId = n.selectedChunkId := by
  rw [calculateFullModuleData_eq]; split <;> rfl

theorem calculateFullModuleData_blacklist (o n : State) :
    (calculateFullModuleData o n).blacklistedModuleIds = n.blacklistedModuleIds := by
  rw [calculateFullModuleData_eq]; split <;> rfl

theorem calculateFullModuleData_json (o n : State) :
    (calculateFullModuleData o n).json = n.json := by
  rw [calculateFullModuleData_eq]; split <;> rfl

theorem calculateFullModuleData_sort (o n : State) :
    (calculateFullModuleData o n).sort = n.sort := by
  rw [calculateFullModuleData_eq]; split <;> rfl

theorem calculateFullModuleData_filters (o n : State) :
    (calculateFullModuleData o n).filters = n.filters := by
  rw [calculateFullModuleData_eq]; split <;> rfl

theorem calculateFullModuleData_expandMode (o n : State) :
    (calculateFullModuleData o n).expandMode = n.expandMode := by
  rw [calculateFullModuleData_eq]; split <;> rfl

theorem calculateFullModuleData_expandedRecords (o n : State) :
    (calculateFullModuleData o n).expandedRecords = n.expandedRecords := by
  rw [calculateFullModuleData_eq]; split <;> rfl

theorem calculateFullModuleData_focus (o n : State) :
    (calculateFullModuleData o n).currentlyFocusedElementID = n.currentlyFocusedElementID := by
  rw [calculateFullModuleData_eq]; split <;> rfl

/-- expectedCalc reads only the four derivation inputs of the state. -/
theorem expectedCalc_congr (s t : State) (hjson : s.json = t.json)
    (hfile : s.selectedFilename = t.selectedFilename)
    (hchunk : s.selectedChunkId = t.selectedChunkId)
    (hbl : s.blacklistedModuleIds = t.blacklistedModuleIds) :
    expectedCalc s = expectedCalc t := by
  unfold expectedCalc
  rw [hjson, hfile, hchunk, hbl]

/-- handleAction never writes the calculatedFullModuleData field. -/
theorem handleAction_calc (s : State) (a : Action) :
    (handleAction s a).calculatedFullModuleData = s.calculatedFullModuleData := by
  cases a <;> (simp only [handleAction]; repeat' split) <;> rfl

/-- The coherence invariant is preserved by every reducer transition. -/
theorem coherent_step (s : State) (a : Action) (h : Coherent s) :
    Coherent (reducer s a) := by
  unfold reducer Coherent
  rw [calculateFullModuleData_eq]
  split
  case isTrue hc =>
    obtain ⟨⟨hj, hf, hch, hb⟩, _⟩ := hc
    rw [handleAction_calc, h]
    exact expectedCalc_congr s (handleAction s a) hj hf hch hb
  case isFalse hc =>
    show expectedCalc (handleAction s a) = _
    exact expectedCalc_congr _ _ rfl rfl rfl rfl

/-- On a coherent state, any transition that leaves the four derivation inputs
unchanged carries the stored derived value through unchanged. -/
theorem calc_frame (s : State) (a : Action) (h : Coherent s)
    (hj : (handleAction s a).json = s.json)
    (hf : (handleAction s a).selectedFilename = s.selectedFilename)
    (hch : (handleAction s a).selectedChunkId = s.selectedChunkId)
    (hb : (handleAction s a).blacklistedModuleIds = s.blacklistedModuleIds) :
    (reducer s a).calculatedFullModuleData = s.calculatedFullModuleData := by
  unfold reducer
  rw [calculateFullModuleData_eq]
  split
  case isTrue hc => exact handleAction_calc s a
  case isFalse hc =>
    show expectedCalc (handleAction s a) = s.calculatedFullModuleData
    rw [expectedCalc_congr (handleAction s a) s hj hf hch hb, h]

/-- The instrumented step never invokes the derivation when the four inputs
are unchanged. -/
theorem calculateFullModuleDataInstr_skip (o n : State)
    (hmemo : o.json = n.json ∧ o.selectedFilename = n.selectedFilename ∧
      o.selectedChunkId = n.selectedChunkId ∧
      o.blacklistedModuleIds = n.blacklistedModuleIds) :
    (calculateFullModuleDataInstr o n).2 = false := by
  unfold calculateFullModuleDataInstr
  cases heq : n.selectedFilename with
  | none => rfl
  | some f =>
    by_cases he : f = ""
    · simp [he]
    · cases hd : getKey n.json f with
      | none => simp [he, hd]
      | some doc =>
        have hc : o.json = n.json ∧ o.selectedFilename = some f ∧
            o.selectedChunkId = n.selectedChunkId ∧
            o.blacklistedModuleIds = n.blacklistedModuleIds :=
          ⟨hmemo.1, hmemo.2.1.trans heq, hmemo.2.2.1, hmemo.2.2.2⟩
        simp [he, hd, hc]

/-- The contracted derived value is none exactly when no usable document is
selected: the filename is null or empty, or the table has no entry for it. -/
theorem expectedCalc_eq_none_iff (st : State) :
    expectedCalc st = none ↔
      (isFalsyStr st.selectedFilename = true ∨
        ∃ f, st.selectedFilename = some f ∧ getKey st.json f = none) := by
  unfold expectedCalc isFalsyStr
  cases heq : st.selectedFilename with
  | none => simp
  | some f =>
    by_cases he : f = ""
    · simp [he]
    · cases hd : getKey st.json f with
      | none => simp [he, hd]
      | some doc => simp [he, hd]

/-- Every entry the graph walk visits is outside the avoid list. -/
theorem bfsSurvivors_avoid (index : List (String × Module)) (avoid : List String) :
    ∀ (fuel : Nat) (visited queue : List (String × Option String)),
      (∀ v ∈ visited, v.1 ∉ avoid) →
      ∀ v ∈ bfsSurvivors index avoid fuel visited queue, v.1 ∉ avoid := by
  intro fuel
  induction fuel with
  | zero =>
    intro visited queue hv v hmem
    simp only [bfsSurvivors] at hmem
    exact hv v hmem
  | succ n ih =>
    intro visited queue hv v hmem
    cases queue with
    | nil =>
      simp only [bfsSurvivors] at hmem
      exact hv v hmem
    | cons q rest =>
      obtain ⟨i, par⟩ := q
      simp only [bfsSurvivors] at hmem
      by_cases hskip : (visited.any (fun w => w.1 == i) || avoid.contains i) = true
      · rw [if_pos hskip] at hmem
        exact ih visited rest hv v hmem
      · rw [if_neg hskip] at hmem
        simp only [Bool.or_eq_true, not_or] at hskip
        have hnotin : i ∉ avoid := by simpa using hskip.2
        cases hg : getKey index i with
        | none =>
          rw [hg] at hmem
          exact ih visited rest hv v hmem
        | some m =>
          rw [hg] at hmem
          refine ih _ _ ?_ v hmem
          intro w hw
          rcases List.mem_append.mp hw with hw | hw
          · exact hv w hw
          · have hwi : w = (i, par) := by simpa using hw
            rw [hwi]
            exact hnotin

/-- Every record of a derivation result stands for a module outside the
blacklist: blacklisted modules are pruned from the derived tree. -/
theorem fullModuleData_not_blacklisted (doc : RawStats) (chunkId : Option String)
    (blacklist : List String) (em : ExtendedModule)
    (hmem : em ∈ (fullModuleData doc chunkId blacklist).extendedModules) :
    em.id ∉ blacklist := by
  unfold fullModuleData at hmem
  simp only [List.mem_filterMap] at hmem
  obtain ⟨v, hv, hmap⟩ := hmem
  cases hg : getKey (rawModuleIndex doc.modules) v.1 with
  | none => simp [hg] at hmap
  | some m =>
    have hid : em.id = v.1 := by
      rw [hg] at hmap
      rw [← Option.some.inj hmap]
    rw [hid]
    exact bfsSurvivors_avoid (rawModuleIndex doc.modules) blacklist _ _ _
      (by intro w hw; exact absurd hw (List.not_mem_nil w)) v hv

/-! ## Claim theorems -/

/-- C1 counterexample: in manual mode with exactly one expanded record, the
onCollapseRecords action on that record empties the expanded set, yet the
resulting mode is manual, not collapse-all as the claim requires (the source
tests the size of the set before the deletion). -/
theorem onCollapseRecords_empties_but_stays_manual :
    ({ INITIAL_STATE with
        expandMode := ExpandMode.manual,
        expandedRecords := ["M"] } : State).expandMode = ExpandMode.manual ∧
    (reducer { INITIAL_STATE with
        expandMode := ExpandMode.manual,
        expandedRecords := ["M"] } (Action.onCollapseRecords "M")).expandedRecords = [] ∧
    (reducer { INITIAL_STATE with
        expandMode := ExpandMode.manual,
        expandedRecords := ["M"] } (Action.onCollapseRecords "M")).expandMode ≠
      ExpandMode.collapseAll := by
  decide

/-- C1 amended: for every state in manual mode, onCollapseRecords removes the
identifier from the expanded set, and the resulting mode is collapse-all
exactly when the set was empty BEFORE the removal: when the set was non-empty
the mode stays manual, even when the removal empties the set. -/
theorem onCollapseRecords_mode_matches_prior_size (s : State) (M : String)
    (_hmode : s.expandMode = ExpandMode.manual) :
    (reducer s (Action.onCollapseRecords M)).expandedRecords =
      setDelete s.expandedRecords M ∧
    (s.expandedRecords = [] →
      (reducer s (Action.onCollapseRecords M)).expandMode = ExpandMode.collapseAll) ∧
    (s.expandedRecords ≠ [] →
      (reducer s (Action.onCollapseRecords M)).expandMode = ExpandMode.manual) := by
  refine ⟨?_, ?_, ?_⟩
  · rw [reducer, calculateFullModuleData_expandedRecords]
    rfl
  · intro hemp
    rw [reducer, calculateFullModuleData_expandMode]
    show (if s.expandedRecords.length = 0 then ExpandMode.collapseAll
          else ExpandMode.manual) = ExpandMode.collapseAll
    rw [if_pos (by rw [hemp]; rfl)]
  · intro hne
    rw [reducer, calculateFullModuleData_expandMode]
    show (if s.expandedRecords.length = 0 then ExpandMode.collapseAll
          else ExpandMode.manual) = ExpandMode.manual
    rw [if_neg (fun h0 => hne (List.length_eq_zero.mp h0))]

/-- C1 amended witness at a concrete state: collapsing one of two expanded
records keeps manual mode. -/
theorem onCollapseRecords_mode_matches_prior_size_witness :
    (reducer { INITIAL_STATE with
        expandMode := ExpandMode.manual,
        expandedRecords := ["A", "B"] } (Action.onCollapseRecords "A")).expandMode =
      ExpandMode.manual :=
  (onCollapseRecords_mode_matches_prior_size
    { INITIAL_STATE with
        expandMode := ExpandMode.manual,
        expandedRecords := ["A", "B"] } "A" rfl).2.2 (by decide)

/-- C9: whenever the expanded-records set is non-empty before the action,
onCollapseRecords forces the expand mode to manual, whatever the prior mode
was and whether or not the collapsed identifier is in the set. -/
theorem collapse_nonempty_set_forces_manual (s : State) (M : String)
    (h : s.expandedRecords ≠ []) :
    (reducer s (Action.onCollapseRecords M)).expandMode = ExpandMode.manual := by
  rw [reducer, calculateFullModuleData_expandMode]
  show (if s.expandedRecords.length = 0 then ExpandMode.collapseAll
        else ExpandMode.manual) = ExpandMode.manual
  rw [if_neg (fun h0 => h (List.length_eq_zero.mp h0))]

/-- C9 witness: collapsing an identifier that is not in the non-empty expanded
set, from expand-all mode, still switches the mode to manual. -/
theorem collapse_nonempty_set_forces_manual_witness :
    (reducer { INITIAL_STATE with
        expandMode := ExpandMode.expandAll,
        expandedRecords := ["A"] } (Action.onCollapseRecords "B")).expandMode =
      ExpandMode.manual :=
  collapse_nonempty_set_forces_manual
    { INITIAL_STATE with
        expandMode := ExpandMode.expandAll,
        expandedRecords := ["A"] } "B" (by decide)

/-- C7: onSorted on the currently active sort field inverts the direction,
and onSorted on any other field selects that field with direction reset to
descending. -/
theorem onSorted_toggles_direction (s : State) (F : String) :
    (F = s.sort.field →
      (reducer s (Action.onSorted F)).sort =
        { field := F
          direction :=
            if s.sort.direction = SortDirection.ASC
            then SortDirection.DESC
            else SortDirection.ASC }) ∧
    (F ≠ s.sort.field →
      (reducer s (Action.onSorted F)).sort =
        { field := F, direction := SortDirection.DESC }) := by
  constructor
  · intro h
    rw [reducer, calculateFullModuleData_sort]
    simp [handleAction, h.symm]
  · intro h
    have hb : (s.sort.field == F) = false :=
      beq_eq_false_iff_ne.mpr (fun hh => h hh.symm)
    rw [reducer, calculateFullModuleData_sort]
    simp [handleAction, hb]

/-- C7 witness: from the initial sort (cumulativeSize, DESC), clicking the same
field yields ASC, and clicking a different field yields it with DESC. -/
theorem onSorted_toggles_direction_witness :
    (reducer INITIAL_STATE (Action.onSorted "cumulativeSize")).sort =
      { field := "cumulativeSize", direction := SortDirection.ASC } ∧
    (reducer INITIAL_STATE (Action.onSorted "moduleName")).sort =
      { field := "moduleName", direction := SortDirection.DESC } :=
  ⟨by have h := (onSorted_toggles_direction INITIAL_STATE "cumulativeSize").1 rfl
      simpa using h,
   (onSorted_toggles_direction INITIAL_STATE "moduleName").2 (by decide)⟩

/-- C5: a requestedDataAtPath action never regresses a ready path to loading:
if the path is ready it stays ready, and in particular requesting right after
loadedStatsAtPath on the same path leaves the status ready. -/
theorem requested_never_regresses_ready (s : State) (p : String) :
    (getKey s.dataPaths p = some DataPathState.ready →
      getKey (reducer s (Action.requestedDataAtPath p)).dataPaths p =
        some DataPathState.ready) ∧
    (∀ stats : RawStats,
      getKey (reducer (reducer s (Action.loadedStatsAtPath p stats))
        (Action.requestedDataAtPath p)).dataPaths p = some DataPathState.ready) := by
  constructor
  · intro h
    rw [reducer, calculateFullModuleData_dataPaths]
    show getKey (setKey s.dataPaths p
      (if getKey s.dataPaths p = some DataPathState.ready
       then DataPathState.ready else DataPathState.loading)) p =
      some DataPathState.ready
    rw [getKey_setKey_self, if_pos h]
  · intro stats
    have h1 : getKey (reducer s (Action.loadedStatsAtPath p stats)).dataPaths p =
        some DataPathState.ready := by
      rw [reducer, calculateFullModuleData_dataPaths]
      show getKey (setKey s.dataPaths p DataPathState.ready) p =
        some DataPathState.ready
      exact getKey_setKey_self s.dataPaths p DataPathState.ready
    rw [reducer, calculateFullModuleData_dataPaths]
    show getKey (setKey (reducer s (Action.loadedStatsAtPath p stats)).dataPaths p
      (if getKey (reducer s (Action.loadedStatsAtPath p stats)).dataPaths p =
          some DataPathState.ready
       then DataPathState.ready else DataPathState.loading)) p =
      some DataPathState.ready
    rw [getKey_setKey_self, if_pos h1]

/-- C5 witness at a concrete state and path. -/
theorem requested_never_regresses_ready_witness :
    getKey (reducer (reducer INITIAL_STATE
      (Action.loadedStatsAtPath "p" { modules := [], chunks := [] }))
      (Action.requestedDataAtPath "p")).dataPaths "p" = some DataPathState.ready :=
  (requested_never_regresses_ready INITIAL_STATE "p").2
    { modules := [], chunks := [] }

/-- C4: on a coherent state, an action whose type is not in the catalog
returns the state unchanged, every field included. -/
theorem unrecognized_action_returns_state (s : State) (t : String)
    (h : Coherent s) : reducer s (Action.unknownAction t) = s := by
  show calculateFullModuleData s s = s
  rw [calculateFullModuleData_eq]
  split
  · rfl
  · rw [← h]

/-- C4 witness at the initial state. -/
theorem unrecognized_action_returns_state_witness :
    reducer INITIAL_STATE (Action.unknownAction "not-an-action") = INITIAL_STATE :=
  unrecognized_action_returns_state INITIAL_STATE "not-an-action" rfl

/-- C2: on a coherent state, any action that leaves the document table, the
selected filename, the selected chunk id and the blacklist unchanged leaves
the stored derived value unchanged, and the derivation is not invoked on that
transition. -/
theorem unchanged_inputs_preserve_derived_data (s : State) (a : Action)
    (h : Coherent s)
    (hj : (handleAction s a).json = s.json)
    (hf : (handleAction s a).selectedFilename = s.selectedFilename)
    (hch : (handleAction s a).selectedChunkId = s.selectedChunkId)
    (hb : (handleAction s a).blacklistedModuleIds = s.blacklistedModuleIds) :
    (reducer s a).calculatedFullModuleData = s.calculatedFullModuleData ∧
    (reducerInstr s a).2 = false :=
  ⟨calc_frame s a h hj hf hch hb,
   calculateFullModuleDataInstr_skip s (handleAction s a)
     ⟨hj.symm, hf.symm, hch.symm, hb.symm⟩⟩

/-- C2 witness: an onSorted transition at the initial state touches none of
the four derivation inputs, keeps the derived value and skips the
derivation. -/
theorem unchanged_inputs_preserve_derived_data_witness :
    (reducer INITIAL_STATE (Action.onSorted "name")).calculatedFullModuleData =
      INITIAL_STATE.calculatedFullModuleData ∧
    (reducerInstr INITIAL_STATE (Action.onSorted "name")).2 = false :=
  unchanged_inputs_preserve_derived_data INITIAL_STATE (Action.onSorted "name")
    rfl rfl rfl rfl rfl

/-- C3: the source mutates its input.  Evaluating the caller-visible effect of
handleAction at the initial state and an onExpandRecords action: the input
state object has gained the module identifier in its expandedRecords set, so
reduce does not leave the input state value as it was. -/
theorem onExpandRecords_mutates_input_state :
    (handleActionPost INITIAL_STATE (Action.onExpandRecords "A")).expandedRecords
      = ["A"] ∧
    (handleActionPost INITIAL_STATE (Action.onExpandRecords "A")).expandedRecords
      ≠ INITIAL_STATE.expandedRecords := by
  decide

/-- C10: erroredAtPath sets the status of the path to error (even from ready)
and changes nothing else: every other path status, the document table and all
remaining fields, including the derived data of a coherent state, are
unchanged. -/
theorem erroredAtPath_only_sets_error_status (s : State) (p e : String)
    (h : Coherent s) :
    getKey (reducer s (Action.erroredAtPath p e)).dataPaths p =
      some DataPathState.error ∧
    (∀ q : String, q ≠ p →
      getKey (reducer s (Action.erroredAtPath p e)).dataPaths q =
        getKey s.dataPaths q) ∧
    (reducer s (Action.erroredAtPath p e)).json = s.json ∧
    (reducer s (Action.erroredAtPath p e)).selectedFilename = s.selectedFilename ∧
    (reducer s (Action.erroredAtPath p e)).selectedChunkId = s.selectedChunkId ∧
    (reducer s (Action.erroredAtPath p e)).blacklistedModuleIds =
      s.blacklistedModuleIds ∧
    (reducer s (Action.erroredAtPath p e)).sort = s.sort ∧
    (reducer s (Action.erroredAtPath p e)).filters = s.filters ∧
    (reducer s (Action.erroredAtPath p e)).expandMode = s.expandMode ∧
    (reducer s (Action.erroredAtPath p e)).expandedRecords = s.expandedRecords ∧
    (reducer s (Action.erroredAtPath p e)).currentlyFocusedElementID =
      s.currentlyFocusedElementID ∧
    (reducer s (Action.erroredAtPath p e)).calculatedFullModuleData =
      s.calculatedFullModuleData := by
  refine ⟨?_, ?_, ?_, ?_, ?_, ?_, ?_, ?_, ?_, ?_, ?_, ?_⟩
  · rw [reducer, calculateFullModuleData_dataPaths]
    show getKey (setKey s.dataPaths p DataPathState.error) p =
      some DataPathState.error
    exact getKey_setKey_self s.dataPaths p DataPathState.error
  · intro q hq
    rw [reducer, calculateFullModuleData_dataPaths]
    show getKey (setKey s.dataPaths p DataPathState.error) q = getKey s.dataPaths q
    exact getKey_setKey_ne s.dataPaths p q DataPathState.error hq
  · rw [reducer, calculateFullModuleData_json]; rfl
  · rw [reducer, calculateFullModuleData_selectedFilename]; rfl
  · rw [reducer, calculateFullModuleData_selectedChunkId]; rfl
  · rw [reducer, calculateFullModuleData_blacklist]; rfl
  · rw [reducer, calculateFullModuleData_sort]; rfl
  · rw [reducer, calculateFullModuleData_filters]; rfl
  · rw [reducer, calculateFullModuleData_expandMode]; rfl
  · rw [reducer, calculateFullModuleData_expandedRecords]; rfl
  · rw [reducer, calculateFullModuleData_focus]; rfl
  · exact calc_frame s (Action.erroredAtPath p e) h rfl rfl rfl rfl

/-- C10 witness at a concrete state with a ready path: the path flips to
error, another path keeps its status. -/
theorem erroredAtPath_only_sets_error_status_witness :
    getKey (reducer { INITIAL_STATE with
        dataPaths := [("a", DataPathState.ready), ("b", DataPathState.loading)] }
      (Action.erroredAtPath "a" "boom")).dataPaths "a" = some DataPathState.error ∧
    getKey (reducer { INITIAL_STATE with
        dataPaths := [("a", DataPathState.ready), ("b", DataPathState.loading)] }
      (Action.erroredAtPath "a" "boom")).dataPaths "b" = some DataPathState.loading :=
  ⟨(erroredAtPath_only_sets_error_status { INITIAL_STATE with
        dataPaths := [("a", DataPathState.ready), ("b", DataPathState.loading)] }
      "a" "boom" rfl).1,
   ((erroredAtPath_only_sets_error_status { INITIAL_STATE with
        dataPaths := [("a", DataPathState.ready), ("b", DataPathState.loading)] }
      "a" "boom" rfl).2.1 "b" (by decide)).trans (by decide)⟩

/-- C8 counterexample: after picking the empty-string path and loading a
document for it, a file is selected (not null) and the table has an entry for
it, yet the derived data is null, because the source guard treats the empty
filename as falsy. -/
theorem empty_filename_selected_yields_null :
    (reducer (reducer INITIAL_STATE (Action.pickDataPath ""))
      (Action.loadedStatsAtPath "" { modules := [], chunks := [] })).selectedFilename
      = some "" ∧
    getKey (reducer (reducer INITIAL_STATE (Action.pickDataPath ""))
      (Action.loadedStatsAtPath "" { modules := [], chunks := [] })).json ""
      = some { modules := [], chunks := [] } ∧
    (reducer (reducer INITIAL_STATE (Action.pickDataPath ""))
      (Action.loadedStatsAtPath "" { modules := [], chunks := [] })).calculatedFullModuleData
      = none := by
  decide

/-- C8 amended: after any transition from a coherent state, the derived data
is null exactly when the selected filename is null or empty or the document
table has no entry for it; in every other case a derivation result is
present. -/
theorem derived_data_null_iff_no_document (s : State) (a : Action)
    (h : Coherent s) :
    (reducer s a).calculatedFullModuleData = none ↔
      (isFalsyStr (reducer s a).selectedFilename = true ∨
        ∃ f, (reducer s a).selectedFilename = some f ∧
          getKey (reducer s a).json f = none) := by
  have hc := coherent_step s a h
  rw [Coherent] at hc
  rw [hc]
  exact expectedCalc_eq_none_iff (reducer s a)

/-- C8 amended witness: picking a path with no loaded document yields a state
with a selected file but null derived data. -/
theorem derived_data_null_iff_no_document_witness :
    (reducer INITIAL_STATE (Action.pickDataPath "f")).calculatedFullModuleData
      = none :=
  (derived_data_null_iff_no_document INITIAL_STATE (Action.pickDataPath "f")
    rfl).mpr (Or.inr ⟨"f", rfl, rfl⟩)

/-- C6: on a coherent state whose derived tree contains the module id M (so M
is not blacklisted), removing M from the view and then including it again
restores the derived data, cumulative sizes included, to its pre-removal
value. -/
theorem blacklist_roundtrip_restores_tree (s : State) (M : String)
    (fmd : FullModuleDataType) (hcoh : Coherent s)
    (hsome : s.calculatedFullModuleData = some fmd)
    (hmem : M ∈ fmd.extendedModules.map ExtendedModule.id) :
    (reducer (reducer s (Action.onRemoveModule M))
      (Action.onIncludeModule M)).calculatedFullModuleData =
      s.calculatedFullModuleData := by
  have hexp : expectedCalc s = some fmd := hcoh.symm.trans hsome
  have hnotmem : M ∉ s.blacklistedModuleIds := by
    unfold expectedCalc at hexp
    cases hf : s.selectedFilename with
    | none => simp [hf] at hexp
    | some f =>
      simp only [hf] at hexp
      by_cases he : f = ""
      · simp [he] at hexp
      · simp only [if_neg he] at hexp
        cases hd : getKey s.json f with
        | none => simp [hd] at hexp
        | some doc =>
          simp only [hd, Option.map_some'] at hexp
          have hfd : fullModuleData doc s.selectedChunkId s.blacklistedModuleIds
              = fmd := Option.some.inj hexp
          obtain ⟨em, hemmem, hemid⟩ := List.mem_map.mp hmem
          rw [← hfd] at hemmem
          have hni := fullModuleData_not_blacklisted doc s.selectedChunkId
            s.blacklistedModuleIds em hemmem
          rw [hemid] at hni
          exact hni
  have hbl1 : (reducer s (Action.onRemoveModule M)).blacklistedModuleIds =
      s.blacklistedModuleIds ++ [M] := by
    rw [reducer, calculateFullModuleData_blacklist]; rfl
  have hjson1 : (reducer s (Action.onRemoveModule M)).json = s.json := by
    rw [reducer, calculateFullModuleData_json]; rfl
  have hfile1 : (reducer s (Action.onRemoveModule M)).selectedFilename =
      s.selectedFilename := by
    rw [reducer, calculateFullModuleData_selectedFilename]; rfl
  have hchunk1 : (reducer s (Action.onRemoveModule M)).selectedChunkId =
      s.selectedChunkId := by
    rw [reducer, calculateFullModuleData_selectedChunkId]; rfl
  have hfilter : s.blacklistedModuleIds.filter (fun id => id != M) =
      s.blacklistedModuleIds := by
    rw [List.filter_eq_self]
    intro b hb
    simp only [bne_iff_ne, ne_eq, decide_eq_true_eq]
    exact fun hba => hnotmem (hba ▸ hb)
  have hbl2 : (handleAction (reducer s (Action.onRemoveModule M))
      (Action.onIncludeModule M)).blacklistedModuleIds =
      s.blacklistedModuleIds := by
    show (reducer s (Action.onRemoveModule M)).blacklistedModuleIds.filter
      (fun id => id != M) = s.blacklistedModuleIds
    rw [hbl1, List.filter_append, hfilter]
    simp
  rw [reducer, calculateFullModuleData_eq]
  split
  next hcond =>
    obtain ⟨⟨-, -, -, hbl⟩, -⟩ := hcond
    rw [hbl2, hbl1] at hbl
    have := congrArg List.length hbl
    simp at this
  next hcond =>
    show expectedCalc (handleAction (reducer s (Action.onRemoveModule M))
      (Action.onIncludeModule M)) = s.calculatedFullModuleData
    rw [expectedCalc_congr (handleAction (reducer s (Action.onRemoveModule M))
      (Action.onIncludeModule M)) s hjson1 hfile1 hchunk1 hbl2]
    exact hcoh.symm

/-- C6 witness: on the concrete demo state, removing module A and including it
again restores the derived data. -/
theorem blacklist_roundtrip_restores_tree_witness :
    (reducer (reducer demoState (Action.onRemoveModule "A"))
      (Action.onIncludeModule "A")).calculatedFullModuleData =
      demoState.calculatedFullModuleData :=
  blacklist_roundtrip_restores_tree demoState "A" (fullModuleData demoDoc none [])
    (by decide) (by decide) (by decide)

end Bonsai
